import Mathlib

/-!
Shallow embedding of the registry-adapter-api core: the ledger transaction
executor (src/lib/ethers.ts), the deterministic id deriver
(src/modules/classes, src/lib/contracts.ts), the idempotency guard
(src/modules/idemp), the receipt lifecycle (src/modules/receipts and the
operation handlers in src/modules/issuance, src/modules/retire,
src/modules/anchor), and the route pipeline (src/routes/index.ts).

The keccak-256 primitive of the ethers library is treated as an abstract
function parameter; every other computation is translated from the source.
-/

namespace RegistryAdapter

/-- Error codes of src/lib/errors.ts (enum ErrorCode). -/
inductive ErrorCode
  | INVALID_JWT
  | FORBIDDEN
  | UNAUTHORIZED
  | BAD_REQUEST
  | VALIDATION_ERROR
  | POLICY_BLOCKED
  | INSUFFICIENT_BALANCE
  | CLASS_NOT_FOUND
  | PROJECT_NOT_APPROVED
  | CHAIN_UNAVAILABLE
  | TX_REVERTED
  | TX_TIMEOUT
  | INSUFFICIENT_GAS
  | IDEMPOTENT_REPLAY
  | REGISTRY_UNAVAILABLE
  | LOCKER_UNAVAILABLE
  | ORACLE_UNAVAILABLE
  | INTERNAL_ERROR
  | DATABASE_ERROR
deriving DecidableEq, Repr

/-- The string stored in the database for an error code (the enum values in
src/lib/errors.ts are the names themselves). -/
def ErrorCode.str : ErrorCode → String
  | .INVALID_JWT => ("INVALID_JWT")
  | .FORBIDDEN => ("FORBIDDEN")
  | .UNAUTHORIZED => ("UNAUTHORIZED")
  | .BAD_REQUEST => ("BAD_REQUEST")
  | .VALIDATION_ERROR => ("VALIDATION_ERROR")
  | .POLICY_BLOCKED => ("POLICY_BLOCKED")
  | .INSUFFICIENT_BALANCE => ("INSUFFICIENT_BALANCE")
  | .CLASS_NOT_FOUND => ("CLASS_NOT_FOUND")
  | .PROJECT_NOT_APPROVED => ("PROJECT_NOT_APPROVED")
  | .CHAIN_UNAVAILABLE => ("CHAIN_UNAVAILABLE")
  | .TX_REVERTED => ("TX_REVERTED")
  | .TX_TIMEOUT => ("TX_TIMEOUT")
  | .INSUFFICIENT_GAS => ("INSUFFICIENT_GAS")
  | .IDEMPOTENT_REPLAY => ("IDEMPOTENT_REPLAY")
  | .REGISTRY_UNAVAILABLE => ("REGISTRY_UNAVAILABLE")
  | .LOCKER_UNAVAILABLE => ("LOCKER_UNAVAILABLE")
  | .ORACLE_UNAVAILABLE => ("ORACLE_UNAVAILABLE")
  | .INTERNAL_ERROR => ("INTERNAL_ERROR")
  | .DATABASE_ERROR => ("DATABASE_ERROR")

/-- AppError of src/lib/errors.ts: a coded error with an HTTP status. -/
structure AppError where
  code : ErrorCode
  message : String
  statusCode : Nat
deriving DecidableEq, Repr

/-- A thrown JavaScript value: either an AppError or any other Error
carrying a message. The code distinguishes the two with instanceof. -/
inductive JsErr
  | app (e : AppError)
  | other (message : String)
deriving DecidableEq, Repr

/-- Result of a confirmed transaction (interface TransactionResult of
src/lib/ethers.ts; onchainHash always set by the success path). -/
structure TxResult where
  txHash : String
  blockNumber : Nat
  gasUsed : Nat
  onchainHash : String
deriving DecidableEq, Repr

/-- The ways one submission attempt can fail inside the try block of
sendTransaction: tx.wait returning no receipt (line 102), a receipt with
status 0 (line 117), or any other thrown error such as a network failure. -/
inductive FailKind
  | noReceipt
  | reverted
  | netError (message : String)
deriving DecidableEq, Repr

/-- Outcome of one attempt of signer.sendTransaction plus tx.wait, as seen
by the loop body of sendTransaction (src/lib/ethers.ts lines 88-147). -/
inductive AttemptOutcome
  | success (txHash : String) (blockNumber : Nat) (gasUsed : Nat)
  | failure (f : FailKind)
deriving DecidableEq, Repr

/-- generateOnchainHash (src/lib/ethers.ts lines 153-158): keccak-256 of
the string txHash-blockNumber-gasUsed. -/
def generateOnchainHash (keccakS : String → String) (txHash : String)
    (blockNumber gasUsed : Nat) : String :=
  keccakS (txHash ++ ("-") ++ toString blockNumber ++ ("-") ++ toString gasUsed)

/-- The error value thrown inside the try block for a failing attempt. -/
def raisedErr : FailKind → JsErr
  | .noReceipt => .app ⟨.TX_TIMEOUT, ("Transaction receipt not found"), 500⟩
  | .reverted => .app ⟨.TX_REVERTED, ("Transaction reverted"), 500⟩
  | .netError m => .other m

/-- The error surfaced when the final attempt fails (src/lib/ethers.ts
lines 134-143): an AppError is rethrown as is, anything else is wrapped in
a TX_REVERTED AppError. -/
def exhaustWrap (maxRetries : Nat) : JsErr → AppError
  | .app e => e
  | .other m =>
      ⟨.TX_REVERTED,
        ("Transaction failed after ") ++ toString maxRetries
          ++ (" attempts: ") ++ m, 500⟩

/-- Trace of one sendTransaction call: the outcome, how many attempts ran,
and the backoff sleeps (in milliseconds) performed between attempts. -/
structure SendTrace where
  result : Except AppError TxResult
  attempts : Nat
  delays : List Nat
deriving Repr

/-- The retry loop of sendTransaction (src/lib/ethers.ts lines 88-150).
The parameter remaining counts the loop iterations still allowed, so the
recursion is structural; sendTransaction calls it with remaining equal to
maxRetries so that the loop runs for attempt = 1 .. maxRetries. The
outcome of attempt number a is behavior a. On a failing attempt the catch
block either rethrows (last attempt) or sleeps 2 ^ attempt * 1000 ms and
retries. Falling out of the loop (remaining = 0) is the unreachable
throw at line 150. -/
def sendTxGo (keccakS : String → String) (behavior : Nat → AttemptOutcome)
    (maxRetries : Nat) : Nat → Nat → SendTrace
  | _, 0 => ⟨.error ⟨.TX_REVERTED, ("Transaction failed"), 500⟩, 0, []⟩
  | attempt, remaining + 1 =>
    match behavior attempt with
    | .success tx bn gas =>
        ⟨.ok ⟨tx, bn, gas, generateOnchainHash keccakS tx bn gas⟩, 1, []⟩
    | .failure f =>
        if attempt = maxRetries then
          ⟨.error (exhaustWrap maxRetries (raisedErr f)), 1, []⟩
        else
          let rest := sendTxGo keccakS behavior maxRetries (attempt + 1) remaining
          ⟨rest.result, rest.attempts + 1, (2 ^ attempt * 1000) :: rest.delays⟩

/-- sendTransaction (src/lib/ethers.ts lines 82-151) with its retry bound,
default 3. -/
def sendTransaction (keccakS : String → String)
    (behavior : Nat → AttemptOutcome) (maxRetries : Nat) : SendTrace :=
  sendTxGo keccakS behavior maxRetries 1 maxRetries

/-- ethers.ZeroHash, the 32-byte zero value as a hex string. -/
def zeroHash : String :=
  ("0x0000000000000000000000000000000000000000000000000000000000000000")

/-- One pass of the while loop of createMerkleRoot (src/lib/contracts.ts
lines 221-229): adjacent elements left to right, the right sibling of a
trailing element is the element itself; JavaScript picks the left element
also when the right one is the empty string, because the logical-or of the
source treats the empty string as falsy. The combined value hashes the
left hex string concatenated with the right one minus its 0x prefix. -/
def merklePair (keccakS : String → String) : List String → List String
  | [] => []
  | [a] => [keccakS (a ++ a.drop 2)]
  | a :: b :: rest =>
      keccakS (a ++ (if b = ("") then a else b).drop 2) :: merklePair keccakS rest

/-- The while loop of createMerkleRoot, run with a fuel bound; each pass
at least halves a level of two or more, so fuel equal to the starting
length is always enough and the zero-fuel branch is never reached from
createMerkleRoot. -/
def merkleLoopFuel (keccakS : String → String) : Nat → List String → String
  | 0, level => level.headD ("")
  | fuel + 1, level =>
      if level.length ≤ 1 then level.headD ("")
      else merkleLoopFuel keccakS fuel (merklePair keccakS level)

/-- The while loop of createMerkleRoot: reduce the level until one root
remains and return it. -/
def merkleLoop (keccakS : String → String) (level : List String) : String :=
  merkleLoopFuel keccakS level.length level

/-- createMerkleRoot (src/lib/contracts.ts lines 209-232): zero hash for
the empty list, the single element unchanged, and otherwise the loop run
on the keccak hash of each input element (line 219 maps keccak256 over the
inputs before any pairing). -/
def createMerkleRoot (keccakS : String → String)
    (evidenceHashes : List String) : String :=
  if evidenceHashes.length = 0 then zeroHash
  else if evidenceHashes.length = 1 then evidenceHashes.headD ("")
  else merkleLoop keccakS (evidenceHashes.map keccakS)

/-- Modelled from the spec wording of aggregateEvidence for comparison:
zero hash for the empty sequence, a single element unchanged, and
otherwise the bottom-up pairing loop applied directly to the input
elements, with no preliminary hash of each element. -/
def specMerkleRoot (keccakS : String → String) (hashes : List String) : String :=
  if hashes.length = 0 then zeroHash
  else if hashes.length = 1 then hashes.headD ("")
  else merkleLoop keccakS hashes

/-- Hex digits of n in base 16, least significant first, with a structural
fuel bound; fuel n is enough because n / 16 < n for positive n. Digits use
Nat.digitChar, which renders 10..15 as lowercase a..f, matching the
JavaScript toString(16). -/
def natToHexAux : Nat → Nat → List Char
  | 0, _ => []
  | fuel + 1, n => if n = 0 then [] else Nat.digitChar (n % 16) :: natToHexAux fuel (n / 16)

/-- The JavaScript BigInt toString(16): lowercase hex, no leading zeros,
and the single digit 0 for zero. -/
def natToHex (n : Nat) : String :=
  if n = 0 then ("0") else String.mk (natToHexAux n n).reverse

/-- The JavaScript padStart(32, "0") on a string. -/
def padStart32 (s : String) : String :=
  String.mk (List.replicate (32 - s.length) (Char.ofNat 48)) ++ s

/-- A JavaScript Date as the code uses it: its epoch milliseconds for
comparisons and its ISO-8601 rendering from toISOString. -/
structure DateT where
  ms : Int
  iso : String
deriving DecidableEq, Repr

/-- generateClassId (src/modules/classes/index.ts lines 66-81): keccak-256
of projectId|ISO(vintageStart)|ISO(vintageEnd), shifted right 128 bits,
rendered in lowercase hex padded to 32 digits and prefixed with 0x. The
abstract keccakN gives the 256-bit hash as a natural number, the value of
the BigInt conversion of the hash hex string. -/
def generateClassId (keccakN : String → Nat) (projectId : String)
    (vintageStart vintageEnd : DateT) : String :=
  let data := projectId ++ ("|") ++ vintageStart.iso ++ ("|") ++ vintageEnd.iso
  let hash := keccakN data
  let shifted := hash / 2 ^ 128
  ("0x") ++ padStart32 (natToHex shifted)

/-- Modelled from the spec wording of deriveClassId for comparison: the
cryptographic hash of the canonical string projectId|ISO8601(start)|
ISO8601(end), truncated to the high-order 128 bits of the 256-bit hash and
rendered as lowercase hex. -/
def specClassId (keccakN : String → Nat) (projectId : String)
    (vintageStart vintageEnd : DateT) : String :=
  ("0x") ++ padStart32 (natToHex
    (keccakN (projectId ++ ("|") ++ vintageStart.iso ++ ("|") ++ vintageEnd.iso) / 2 ^ 128))

/-- The JavaScript test trim().length === 0: the string is all
whitespace. -/
def isBlank (s : String) : Bool :=
  s.data.all (fun c => c.isWhitespace)

/-- validateClassMapping (src/modules/classes/index.ts lines 105-133):
rejects an empty or blank project id, a window whose start is not before
its end, and a window longer than ten 365-day years in milliseconds. -/
def validateClassMapping (projectId : String)
    (vintageStart vintageEnd : DateT) : Except AppError Unit :=
  if projectId = ("") ∨ isBlank projectId then
    .error ⟨.BAD_REQUEST, ("Project ID is required"), 400⟩
  else if vintageEnd.ms ≤ vintageStart.ms then
    .error ⟨.BAD_REQUEST, ("Vintage start date must be before end date"), 400⟩
  else if 10 * 365 * 24 * 60 * 60 * 1000 < vintageEnd.ms - vintageStart.ms then
    .error ⟨.BAD_REQUEST, ("Vintage window cannot exceed 10 years"), 400⟩
  else .ok ()

/- JSON values as they appear in parsed request bodies. Objects are
ordered field lists, key order being the JavaScript insertion order; the
list types are part of the mutual definition so that every recursion below
is structural. -/
mutual

inductive Json
  | jnull
  | jbool (b : Bool)
  | jnum (n : Int)
  | jstr (s : String)
  | jarr (elems : JsonList)
  | jobj (fields : JsonFields)

inductive JsonList
  | nil
  | cons (head : Json) (tail : JsonList)

inductive JsonFields
  | fnil
  | fcons (key : String) (value : Json) (tail : JsonFields)

end

/-- First binding of a key in an association list of rendered fields, the
JavaScript property lookup. -/
def strAssoc (k : String) : List (String × String) → Option String
  | [] => none
  | (k2, v) :: rest => if k2 = k then some v else strAssoc k rest

/- JSON.stringify with an array replacer K, as ECMA-262 specifies it: K
is the property list, so at EVERY object - not only the top level - the
keys of K are serialized in the order of K and every key absent from K is
dropped; arrays and scalars are serialized in full. The object case first
renders all fields and then selects by K, which equals the JavaScript
per-key lookup because the lookup takes the first binding. -/
mutual

def serializeJson (K : List String) : Json → String
  | .jnull => ("null")
  | .jbool b => if b then ("true") else ("false")
  | .jnum n => toString n
  | .jstr s => ("\"") ++ s ++ ("\"")
  | .jarr es =>
      ("[") ++ String.intercalate (",") (serializeList K es) ++ ("]")
  | .jobj fs =>
      ("\x7b") ++ String.intercalate (",") (K.filterMap (fun k =>
        (strAssoc k (serializeFields K fs)).map (fun sv =>
          ("\"") ++ k ++ ("\":") ++ sv))) ++ ("\x7d")

def serializeList (K : List String) : JsonList → List String
  | .nil => []
  | .cons h t => serializeJson K h :: serializeList K t

def serializeFields (K : List String) : JsonFields → List (String × String)
  | .fnil => []
  | .fcons k v rest => (k, serializeJson K v) :: serializeFields K rest

end

/-- Field names of an object field list, in insertion order. -/
def fieldKeys : JsonFields → List String
  | .fnil => []
  | .fcons k _ rest => k :: fieldKeys rest

/-- Object.keys on a body value: the field names of an object in insertion
order, the empty list otherwise. -/
def jsObjectKeys : Json → List String
  | .jobj fs => fieldKeys fs
  | _ => []

/-- Insertion of a string into a sorted list, preserving order. -/
def insertStr (s : String) : List String → List String
  | [] => [s]
  | t :: rest => if s ≤ t then s :: t :: rest else t :: insertStr s rest

/-- The JavaScript Array.sort default string ordering. -/
def sortStrings : List String → List String
  | [] => []
  | s :: rest => insertStr s (sortStrings rest)

/-- generateBodyHash (src/modules/idemp/index.ts lines 28-31):
keccak-256 of JSON.stringify(body, Object.keys(body).sort()). -/
def generateBodyHash (keccakS : String → String) (body : Json) : String :=
  keccakS (serializeJson (sortStrings (jsObjectKeys body)) body)

/-- One idempotency row (prisma model Idempotency). -/
structure IdempRecord where
  key : String
  method : String
  path : String
  bodyHash : String
  orgId : String
  receiptId : Option String
deriving DecidableEq, Repr

/-- The idempotency table. -/
abbrev IdempStore := List IdempRecord

/-- findUnique on the idempotency key. -/
def findIdemp (key : String) (store : IdempStore) : Option IdempRecord :=
  store.find? (fun r => r.key = key)

/-- Return shape of checkIdempotency (interface IdempotencyCheck). -/
structure IdempotencyCheck where
  isReplay : Bool
  existingReceiptId : Option String
deriving DecidableEq, Repr

/-- checkIdempotency (src/modules/idemp/index.ts lines 33-81): absent key
is a first-seen request; a stored key with the identical
(method, path, bodyHash, orgId) tuple is a replay carrying the stored
receipt id; a stored key with any differing field throws the 409
IDEMPOTENT_REPLAY AppError. -/
def checkIdempotency (store : IdempStore) (method path bodyHash orgId key : String) :
    Except AppError IdempotencyCheck :=
  match findIdemp key store with
  | none => .ok ⟨false, none⟩
  | some existing =>
      if existing.method = method ∧ existing.path = path ∧
          existing.bodyHash = bodyHash ∧ existing.orgId = orgId then
        .ok ⟨true, existing.receiptId⟩
      else
        .error ⟨.IDEMPOTENT_REPLAY,
          ("Idempotency key already used with different request parameters"), 409⟩

/-- storeIdempotency (src/modules/idemp/index.ts lines 83-111): insert a
new row binding the key to the receipt. No call site exists anywhere in
the repository, so no pipeline below invokes it. -/
def storeIdempotency (store : IdempStore)
    (method path bodyHash orgId key receiptId : String) : IdempStore :=
  store ++ [⟨key, method, path, bodyHash, orgId, some receiptId⟩]

/-- Receipt status (prisma enum: PENDING, MINED, FAILED). -/
inductive RStatus
  | PENDING
  | MINED
  | FAILED
deriving DecidableEq, Repr

/-- Receipt operation kind (prisma enum: MINT, RETIRE, ANCHOR, TRANSFER). -/
inductive RType
  | MINT
  | RETIRE
  | ANCHOR
  | TRANSFER
deriving DecidableEq, Repr

/-- One receipt row (prisma model Receipt). -/
structure Receipt where
  id : String
  rtype : RType
  classId : Option String
  projectId : Option String
  orgId : String
  quantity : Option Int
  factorRef : Option String
  paramsJson : Json
  txHash : Option String
  blockNumber : Option Nat
  onchainHash : Option String
  status : RStatus
  errorCode : Option String
  errorMessage : Option String

/-- The receipts table. -/
abbrev ReceiptStore := List Receipt

/-- findUnique on the receipt id. -/
def findReceipt (id : String) (store : ReceiptStore) : Option Receipt :=
  store.find? (fun r => r.id = id)

/-- The fresh cuid prisma assigns at creation, modelled as an id derived
from the table size, which the pipelines keep collision free. -/
def freshId (store : ReceiptStore) : String :=
  ("r") ++ toString store.length

/-- The prisma update the handlers run on success: transaction fields and
status MINED on the row with the given id. -/
def markMined (store : ReceiptStore) (id : String) (r : TxResult) : ReceiptStore :=
  store.map (fun rc =>
    if rc.id = id then
      { rc with
        txHash := some r.txHash
        blockNumber := some r.blockNumber
        onchainHash := some r.onchainHash
        status := .MINED }
    else rc)

/-- The prisma update the handlers run in the catch branch: status FAILED
plus error code and message on the row with the given id. -/
def markFailed (store : ReceiptStore) (id : String) (code message : String) : ReceiptStore :=
  store.map (fun rc =>
    if rc.id = id then
      { rc with
        status := .FAILED
        errorCode := some code
        errorMessage := some message }
    else rc)

/-- updateReceiptStatus (src/modules/receipts/index.ts lines 86-112): an
unguarded prisma update writing the given status; an omitted error code or
message leaves the stored field unchanged, because prisma ignores an
undefined value. No current status is checked. -/
def updateReceiptStatus (store : ReceiptStore) (adapterTxId : String)
    (status : RStatus) (errorCode errorMessage : Option String) : ReceiptStore :=
  store.map (fun rc =>
    if rc.id = adapterTxId then
      { rc with
        status := status
        errorCode := match errorCode with | some c => some c | none => rc.errorCode
        errorMessage := match errorMessage with | some m => some m | none => rc.errorMessage }
    else rc)

/-- getBalance (src/lib/ethers.ts lines 165-175): a truthy tokenId - any
nonempty string - yields the mock constant 1000; otherwise the native
balance of the address is read from the chain, abstracted here as the
chainBalance parameter. -/
def getBalance (chainBalance : Int) (_address : String) (tokenId : Option String) : Int :=
  if (tokenId.getD ("")) = ("") then chainBalance else 1000

/-- The string written to receipt.errorCode in the handler catch branches:
the code of an AppError, TX_REVERTED for anything else. -/
def catchCodeStr : JsErr → String
  | .app e => e.code.str
  | .other _ => ErrorCode.TX_REVERTED.str

/-- The string written to receipt.errorMessage in the handler catch
branches: the message of the error. -/
def catchMsgStr : JsErr → String
  | .app e => e.message
  | .other m => m

/-- The outer catch of each handler: an AppError is rethrown unchanged,
anything else becomes an INTERNAL_ERROR AppError with the handler message. -/
def outerWrap (opMessage : String) : JsErr → AppError
  | .app e => e
  | .other _ => ⟨.INTERNAL_ERROR, opMessage, 500⟩

/-- Success payload of an operation handler. -/
structure OpResp where
  adapterTxId : String
  classId : Option String
  quantity : Option Int
  txHash : String
  blockNumber : Nat
  onchainHash : String
  receiptUrl : String

/-- What a handler leaves behind: the returned value or error, the receipt
table, and how many sendTransaction calls ran. -/
structure HandlerResult where
  result : Except AppError OpResp
  receipts : ReceiptStore
  submits : Nat

/-- Retirement request fields (RetireRequestSchema) together with the raw
idempotency key header and the raw JSON body the middleware hashes. -/
structure RetireReq where
  classId : String
  holder : String
  quantity : Int
  purposeHash : String
  beneficiaryHash : String
  offchainRef : Option String
  idemKey : String
  body : Json

/-- The PENDING receipt retireCredits creates (src/modules/retire/index.ts
lines 55-69). -/
def pendingRetireReceipt (id : String) (req : RetireReq) (orgId : String) : Receipt :=
  { id := id
    rtype := .RETIRE
    classId := some req.classId
    projectId := none
    orgId := orgId
    quantity := some req.quantity
    factorRef := none
    paramsJson := .jobj (.fcons ("holder") (.jstr req.holder)
      (.fcons ("purposeHash") (.jstr req.purposeHash)
        (.fcons ("beneficiaryHash") (.jstr req.beneficiaryHash) .fnil)))
    txHash := none
    blockNumber := none
    onchainHash := none
    status := .PENDING
    errorCode := none
    errorMessage := none }

/-- retireCredits (src/modules/retire/index.ts lines 16-152): reject a
non-positive quantity, run the advisory balance preflight, create the
PENDING receipt, submit, and finalize the receipt to MINED or FAILED; a
ledger failure is recorded on the receipt and then rethrown, the outer
catch wrapping non-AppError values. The ledger parameter is the outcome of
the sendTransaction call for this request. -/
def retireCredits (receipts : ReceiptStore) (req : RetireReq) (orgId : String)
    (chainBalance : Int) (ledger : Except JsErr TxResult) : HandlerResult :=
  if req.quantity ≤ 0 then
    ⟨.error ⟨.BAD_REQUEST, ("Quantity must be positive"), 400⟩, receipts, 0⟩
  else
    let balance := getBalance chainBalance req.holder (some req.classId)
    if balance < req.quantity then
      ⟨.error ⟨.INSUFFICIENT_BALANCE,
        ("Insufficient balance. Holder has ") ++ toString balance
          ++ (", requested ") ++ toString req.quantity, 400⟩, receipts, 0⟩
    else
      let rid := freshId receipts
      let receipts1 := receipts ++ [pendingRetireReceipt rid req orgId]
      match ledger with
      | .ok r =>
          ⟨.ok ⟨rid, some req.classId, some req.quantity, r.txHash, r.blockNumber,
            r.onchainHash, ("/v1/receipts/") ++ rid⟩,
            markMined receipts1 rid r, 1⟩
      | .error e =>
          ⟨.error (outerWrap ("Failed to retire credits") e),
            markFailed receipts1 rid (catchCodeStr e) (catchMsgStr e), 1⟩

/-- Anchor request fields (AnchorRequestSchema) with the transport extras. -/
structure AnchorReq where
  topic : String
  hash : String
  uri : Option String
  idemKey : String
  body : Json

/-- The PENDING receipt anchorEvidence creates (src/modules/anchor/index.ts
lines 25-36). -/
def pendingAnchorReceipt (id : String) (req : AnchorReq) (orgId : String) : Receipt :=
  { id := id
    rtype := .ANCHOR
    classId := none
    projectId := none
    orgId := orgId
    quantity := none
    factorRef := none
    paramsJson := .jobj (.fcons ("topic") (.jstr req.topic)
      (.fcons ("hash") (.jstr req.hash) .fnil))
    txHash := none
    blockNumber := none
    onchainHash := none
    status := .PENDING
    errorCode := none
    errorMessage := none }

/-- anchorEvidence (src/modules/anchor/index.ts lines 10-117): create the
PENDING receipt, submit, finalize to MINED or FAILED, recording any ledger
failure on the receipt before rethrowing. -/
def anchorEvidence (receipts : ReceiptStore) (req : AnchorReq) (orgId : String)
    (ledger : Except JsErr TxResult) : HandlerResult :=
  let rid := freshId receipts
  let receipts1 := receipts ++ [pendingAnchorReceipt rid req orgId]
  match ledger with
  | .ok r =>
      ⟨.ok ⟨rid, none, none, r.txHash, r.blockNumber, r.onchainHash,
        ("/v1/receipts/") ++ rid⟩,
        markMined receipts1 rid r, 1⟩
  | .error e =>
      ⟨.error (outerWrap ("Failed to anchor evidence") e),
        markFailed receipts1 rid (catchCodeStr e) (catchMsgStr e), 1⟩

/-- One class mapping row (prisma model ClassMap). -/
structure ClassMapRow where
  projectId : String
  vintageStart : DateT
  vintageEnd : DateT
  classId : String
deriving DecidableEq, Repr

/-- resolveClassId (src/modules/classes/index.ts lines 14-64): return the
stored class id for the triple if present, otherwise generate one, store
the new mapping and return it. -/
def resolveClassId (keccakN : String → Nat) (classMap : List ClassMapRow)
    (projectId : String) (vintageStart vintageEnd : DateT) :
    String × List ClassMapRow :=
  match classMap.find? (fun m =>
      decide (m.projectId = projectId ∧ m.vintageStart = vintageStart ∧
        m.vintageEnd = vintageEnd)) with
  | some m => (m.classId, classMap)
  | none =>
      let cid := generateClassId keccakN projectId vintageStart vintageEnd
      (cid, classMap ++ [⟨projectId, vintageStart, vintageEnd, cid⟩])

/-- Issuance request fields (IssuanceFinalizeRequestSchema) with the
transport extras; the vintage bounds carry their Date parse. -/
structure IssueReq where
  issuanceId : String
  projectId : String
  vintageStart : DateT
  vintageEnd : DateT
  quantity : Int
  factorRef : String
  evidenceHashes : List String
  classId : Option String
  idemKey : String
  body : Json

/-- The PENDING receipt finalizeIssuance creates
(src/modules/issuance/index.ts lines 172-188). -/
def pendingIssueReceipt (id : String) (req : IssueReq) (classId orgId : String) : Receipt :=
  { id := id
    rtype := .MINT
    classId := some classId
    projectId := some req.projectId
    orgId := orgId
    quantity := some req.quantity
    factorRef := some req.factorRef
    paramsJson := .jobj (.fcons ("issuanceId") (.jstr req.issuanceId)
      (.fcons ("vintageStart") (.jstr req.vintageStart.iso)
        (.fcons ("vintageEnd") (.jstr req.vintageEnd.iso) .fnil)))
    txHash := none
    blockNumber := none
    onchainHash := none
    status := .PENDING
    errorCode := none
    errorMessage := none }

/-- What finalizeIssuance leaves behind; it can also extend the class
mapping table. -/
structure IssuanceResult where
  result : Except AppError OpResp
  receipts : ReceiptStore
  classMap : List ClassMapRow
  submits : Nat

/-- finalizeIssuance (src/modules/issuance/index.ts lines 130-286):
validate the vintage window, resolve the class id - a request classId that
is falsy, absent or empty, triggers resolveClassId, which may append a
mapping row - reject a non-positive quantity, create the PENDING receipt,
submit, and finalize the receipt to MINED or FAILED, recording any ledger
failure on the receipt before rethrowing. -/
def finalizeIssuance (keccakN : String → Nat)
    (receipts : ReceiptStore) (classMap : List ClassMapRow) (req : IssueReq)
    (orgId : String) (ledger : Except JsErr TxResult) : IssuanceResult :=
  match validateClassMapping req.projectId req.vintageStart req.vintageEnd with
  | .error e => ⟨.error e, receipts, classMap, 0⟩
  | .ok _ =>
    let rcm :=
      if (req.classId.getD ("")) = ("") then
        resolveClassId keccakN classMap req.projectId req.vintageStart req.vintageEnd
      else ((req.classId.getD ("")), classMap)
    let classId := rcm.1
    let classMap1 := rcm.2
    if req.quantity ≤ 0 then
      ⟨.error ⟨.BAD_REQUEST, ("Quantity must be positive"), 400⟩, receipts, classMap1, 0⟩
    else
      let rid := freshId receipts
      let receipts1 := receipts ++ [pendingIssueReceipt rid req classId orgId]
      match ledger with
      | .ok r =>
          ⟨.ok ⟨rid, some classId, some req.quantity, r.txHash, r.blockNumber,
            r.onchainHash, ("/v1/receipts/") ++ rid⟩,
            markMined receipts1 rid r, classMap1, 1⟩
      | .error e =>
          ⟨.error (outerWrap ("Failed to finalize issuance") e),
            markFailed receipts1 rid (catchCodeStr e) (catchMsgStr e), classMap1, 1⟩

/-- validateIssuanceRequest (src/modules/issuance/index.ts lines 288-335):
role check, schema check - always satisfied by a well-typed request - a
nonempty evidence list, and the factor reference prefix. -/
def validateIssuanceRequest (req : IssueReq) (role : String) : Except AppError Unit :=
  if ¬ (role = ("ADMIN") ∨ role = ("VERIFIER") ∨ role = ("ISSUER")) then
    .error ⟨.FORBIDDEN, ("Insufficient permissions to finalize issuance"), 403⟩
  else if req.evidenceHashes.length = 0 then
    .error ⟨.BAD_REQUEST, ("At least one evidence hash is required"), 400⟩
  else if ¬ (("FACTOR_").data.isPrefixOf req.factorRef.data) then
    .error ⟨.BAD_REQUEST, ("Factor reference must start with FACTOR_"), 400⟩
  else .ok ()

/-- The whole persisted state the pipelines touch. -/
structure Db where
  receipts : ReceiptStore
  idemp : IdempStore
  classMap : List ClassMapRow

/-- Response body of a route, reduced to the fields the claims mention. -/
inductive RespBody
  | err (code : ErrorCode) (message : String)
  | receiptRef (adapterTxId : String) (classId : Option String)
      (quantity : Option Int) (txHash : Option String)
      (blockNumber : Option Nat) (onchainHash : Option String)
deriving DecidableEq, Repr

/-- Outcome of the idempotency preHandler for one request. -/
inductive MidStep
  | reply (status : Nat) (body : RespBody)
  | proceed

/-- getIdempotencyMiddleware (src/modules/idemp/index.ts lines 113-168)
for a mutating request: hash the body, run checkIdempotency, answer a
conflict with the AppError status, answer a replay whose bound receipt
exists with the stored receipt, and otherwise let the handler run. -/
def idempotencyMiddleware (keccakS : String → String) (db : Db)
    (method path key : String) (body : Json) (orgId : String) : MidStep :=
  let bodyHash := generateBodyHash keccakS body
  match checkIdempotency db.idemp method path bodyHash orgId key with
  | .error e => .reply e.statusCode (.err e.code e.message)
  | .ok chk =>
      if chk.isReplay then
        match chk.existingReceiptId with
        | some rid =>
            match findReceipt rid db.receipts with
            | some r => .reply 200
                (.receiptRef r.id r.classId r.quantity r.txHash r.blockNumber r.onchainHash)
            | none => .proceed
        | none => .proceed
      else .proceed

/-- Outcome of one full route dispatch. -/
structure HttpResult where
  status : Nat
  body : RespBody
  db : Db
  submits : Nat

/-- The retirement route (src/routes/index.ts lines 164-230): idempotency
preHandler, then retireCredits, errors rendered by the fastify error
handler. No step writes the idempotency table: storeIdempotency has no
call site. -/
def runRetireRoute (keccakS : String → String) (db : Db) (req : RetireReq)
    (orgId : String) (chainBalance : Int) (ledger : Except JsErr TxResult) : HttpResult :=
  match idempotencyMiddleware keccakS db ("POST") ("/v1/credit/retire")
      req.idemKey req.body orgId with
  | .reply s b => ⟨s, b, db, 0⟩
  | .proceed =>
      match retireCredits db.receipts req orgId chainBalance ledger with
      | ⟨.ok resp, receipts1, n⟩ =>
          ⟨201, .receiptRef resp.adapterTxId resp.classId resp.quantity
            (some resp.txHash) (some resp.blockNumber) (some resp.onchainHash),
            { db with receipts := receipts1 }, n⟩
      | ⟨.error e, receipts1, n⟩ =>
          ⟨e.statusCode, .err e.code e.message, { db with receipts := receipts1 }, n⟩

/-- The issuance route (src/routes/index.ts lines 88-161): idempotency
preHandler, validateIssuanceRequest, then finalizeIssuance. The block
commented as storing idempotency at lines 154-158 is empty, and no other
step writes the idempotency table. -/
def runIssuanceRoute (keccakN : String → Nat) (keccakS : String → String)
    (db : Db) (req : IssueReq) (orgId role : String)
    (ledger : Except JsErr TxResult) : HttpResult :=
  match idempotencyMiddleware keccakS db ("POST") ("/v1/credit/issuance/finalize")
      req.idemKey req.body orgId with
  | .reply s b => ⟨s, b, db, 0⟩
  | .proceed =>
      match validateIssuanceRequest req role with
      | .error e => ⟨e.statusCode, .err e.code e.message, db, 0⟩
      | .ok _ =>
          match finalizeIssuance keccakN db.receipts db.classMap req orgId ledger with
          | ⟨.ok resp, receipts1, classMap1, n⟩ =>
              ⟨201, .receiptRef resp.adapterTxId resp.classId resp.quantity
                (some resp.txHash) (some resp.blockNumber) (some resp.onchainHash),
                { db with receipts := receipts1, classMap := classMap1 }, n⟩
          | ⟨.error e, receipts1, classMap1, n⟩ =>
              ⟨e.statusCode, .err e.code e.message,
                { db with receipts := receipts1, classMap := classMap1 }, n⟩

/-- Lowercase hexadecimal digits. -/
def hexLower (c : Char) : Bool :=
  (("0123456789abcdef").toList).contains c

/-- The rendering the spec prescribes for a class identifier: the 0x
prefix followed by exactly 32 lowercase hex digits. -/
def classIdWellFormed (s : String) : Prop :=
  s.length = 34 ∧ s.data.take 2 = [('0'), ('x')] ∧
    (s.data.drop 2).length = 32 ∧ (s.data.drop 2).all hexLower = true

/-! Concrete fixtures used by witnesses and counterexamples. The two demo
hash functions stand in for keccak-256 at concrete inputs; every statement
quantified over the hash is proved for all hash functions, so the demo
instances only serve evaluation. -/

/-- Demo string hash: injective enough for the evaluations below. -/
def demoHashS : String → String := fun s => ("0xK") ++ s

/-- Demo numeric hash, always below 2 to the 256. -/
def demoHashN : String → Nat := fun _ => 0

/-- Behavior that reverts on the first attempt and succeeds on the second. -/
def revertThenOk : Nat → AttemptOutcome := fun a =>
  if a = 1 then .failure .reverted else .success ("0xabc") 5 21000

/-- Behavior that reverts on every attempt. -/
def revertAlways : Nat → AttemptOutcome := fun _ => .failure .reverted

/-- Behavior that fails transiently twice, then succeeds. -/
def transientTwice : Nat → AttemptOutcome := fun a =>
  if a ≤ 2 then .failure .noReceipt else .success ("0xdef") 9 30000

/-- Behavior with a network error on every attempt. -/
def allNetErr : Nat → AttemptOutcome := fun _ =>
  .failure (.netError ("connection refused"))

/-- Behavior that times out waiting for a receipt on every attempt. -/
def allTimeout : Nat → AttemptOutcome := fun _ => .failure .noReceipt

/-- A vintage window start used by the evaluations. -/
def vintage2020Start : DateT := ⟨1577836800000, ("2020-01-01T00:00:00.000Z")⟩

/-- A vintage window end used by the evaluations. -/
def vintage2020End : DateT := ⟨1609459199000, ("2020-12-31T23:59:59.000Z")⟩

/-- A request body with one nested object field. -/
def nestedBody1 : Json :=
  .jobj (.fcons ("a") (.jobj (.fcons ("b") (.jnum 1) .fnil)) .fnil)

/-- The same body with a different nested value. -/
def nestedBody2 : Json :=
  .jobj (.fcons ("a") (.jobj (.fcons ("b") (.jnum 2) .fnil)) .fnil)

/-- The empty database. -/
def emptyDb : Db := ⟨[], [], []⟩

/-- A successful ledger submission outcome. -/
def txOkDemo : Except JsErr TxResult := .ok ⟨("0xth"), 7, 21000, ("0xoch")⟩

/-- Issuance request used by the duplicate-submission evaluation. -/
def issueReqDemo : IssueReq :=
  { issuanceId := ("iss-1")
    projectId := ("PRJ001")
    vintageStart := vintage2020Start
    vintageEnd := vintage2020End
    quantity := 100
    factorRef := ("FACTOR_X")
    evidenceHashes := [("0xe1")]
    classId := some ("0xclass1")
    idemKey := ("11111111-1111-1111-1111-111111111111")
    body := .jobj (.fcons ("issuanceId") (.jstr ("iss-1")) .fnil) }

/-- First dispatch of the demo issuance request against the empty
database. -/
def issueRun1 : HttpResult :=
  runIssuanceRoute demoHashN demoHashS emptyDb issueReqDemo ("org1") ("ISSUER") txOkDemo

/-- Second, identical dispatch, on the database the first one left. -/
def issueRun2 : HttpResult :=
  runIssuanceRoute demoHashN demoHashS issueRun1.db issueReqDemo ("org1") ("ISSUER") txOkDemo

/-- A retirement request body. -/
def retireBodyDemo : Json := .jobj (.fcons ("q") (.jnum 1) .fnil)

/-- A retirement request used by the evaluations. -/
def retireReqDemo : RetireReq :=
  { classId := ("0xclass1")
    holder := ("0xholder")
    quantity := 5
    purposeHash := ("0xp")
    beneficiaryHash := ("0xb")
    offchainRef := none
    idemKey := ("K1")
    body := retireBodyDemo }

/-- A stored idempotency record whose organization differs from the demo
caller. -/
def idempRecConflict : IdempRecord :=
  ⟨("K1"), ("POST"), ("/v1/credit/retire"),
    generateBodyHash demoHashS retireBodyDemo, ("orgOther"), some ("r9")⟩

/-- A stored idempotency record matching the demo retirement request,
bound to receipt r0. -/
def idempRecMatch : IdempRecord :=
  ⟨("K1"), ("POST"), ("/v1/credit/retire"),
    generateBodyHash demoHashS retireBodyDemo, ("org1"), some ("r0")⟩

/-- A MINED receipt with id r0. -/
def minedReceiptDemo : Receipt :=
  { id := ("r0")
    rtype := .RETIRE
    classId := some ("0xclass1")
    projectId := none
    orgId := ("org1")
    quantity := some 5
    factorRef := none
    paramsJson := .jnull
    txHash := some ("0xth")
    blockNumber := some 3
    onchainHash := some ("0xoch")
    status := .MINED
    errorCode := none
    errorMessage := none }

/-- Database holding the conflicting idempotency record. -/
def dbConflict : Db := ⟨[], [idempRecConflict], []⟩

/-- Database holding the matching idempotency record and its receipt. -/
def dbReplay : Db := ⟨[minedReceiptDemo], [idempRecMatch], []⟩

/-- Database with one MINED receipt and no idempotency record. -/
def dbPre : Db := ⟨[minedReceiptDemo], [], []⟩

/-- An anchoring request used by the evaluations. -/
def anchorReqDemo : AnchorReq :=
  { topic := ("topic-1")
    hash := ("0xhash")
    uri := none
    idemKey := ("K2")
    body := .jobj (.fcons ("topic") (.jstr ("topic-1")) .fnil) }

/-- A transient ledger failure used by the evaluations. -/
def ledgerErrDemo : JsErr := .other ("connection reset")

/-- The demo retirement request with a quantity above the mock balance. -/
def retireReqBig : RetireReq :=
  { retireReqDemo with quantity := 2000 }

end RegistryAdapter

namespace RegistryAdapter

/-! Theorems. -/

/-- C2: the claim states that a first-attempt ledger revert is never
retried and surfaces TX_REVERTED after exactly one attempt. The code
refutes it: with the default bound of 3, a behavior that reverts on
attempt 1 and succeeds on attempt 2 makes sendTransaction return success
after 2 attempts. -/
theorem sendTransaction_revert_retried_cex :
    revertThenOk 1 = .failure .reverted ∧
    (sendTransaction demoHashS revertThenOk 3).attempts = 2 ∧
    (sendTransaction demoHashS revertThenOk 3).result =
      .ok ⟨("0xabc"), 5, 21000, ("0xK0xabc-5-21000")⟩ := by
  refine ⟨rfl, rfl, rfl⟩

/-- C2 amended: a ledger revert is retried like any other failure; a
behavior reverting on attempt 1 and succeeding on attempt 2 yields success
after 2 attempts with one backoff sleep, and only a behavior reverting on
every attempt surfaces TX_REVERTED, after all 3 attempts. -/
theorem sendTransaction_revert_retry_policy
    (keccakS : String → String) (b b2 : Nat → AttemptOutcome)
    (tx : String) (bn gas : Nat)
    (h1 : b 1 = .failure .reverted)
    (h2 : b 2 = .success tx bn gas)
    (hall : ∀ a, b2 a = .failure .reverted) :
    (sendTransaction keccakS b 3).result =
      .ok ⟨tx, bn, gas, generateOnchainHash keccakS tx bn gas⟩ ∧
    (sendTransaction keccakS b 3).attempts = 2 ∧
    (sendTransaction keccakS b 3).delays = [2000] ∧
    (sendTransaction keccakS b2 3).result =
      .error ⟨.TX_REVERTED, ("Transaction reverted"), 500⟩ ∧
    (sendTransaction keccakS b2 3).attempts = 3 := by
  simp [sendTransaction, sendTxGo, h1, h2, hall, raisedErr, exhaustWrap]

/-- C2 amended, witness: the policy theorem applied to the demo behaviors. -/
theorem sendTransaction_revert_retry_policy_witness :
    (sendTransaction demoHashS revertThenOk 3).result =
      .ok ⟨("0xabc"), 5, 21000,
        generateOnchainHash demoHashS ("0xabc") 5 21000⟩ ∧
    (sendTransaction demoHashS revertThenOk 3).attempts = 2 ∧
    (sendTransaction demoHashS revertThenOk 3).delays = [2000] ∧
    (sendTransaction demoHashS revertAlways 3).result =
      .error ⟨.TX_REVERTED, ("Transaction reverted"), 500⟩ ∧
    (sendTransaction demoHashS revertAlways 3).attempts = 3 :=
  sendTransaction_revert_retry_policy demoHashS revertThenOk revertAlways
    ("0xabc") 5 21000 rfl rfl (fun _ => rfl)

/-- C3: the claim states that exhausting the 3 attempts on transient
failures always surfaces TX_TIMEOUT or LEDGER_UNAVAILABLE
(CHAIN_UNAVAILABLE). The code refutes it: a network error on every
attempt, a transient failure, surfaces the catch-all TX_REVERTED. -/
theorem sendTransaction_exhaust_code_cex :
    (sendTransaction demoHashS allNetErr 3).result =
      .error ⟨.TX_REVERTED,
        ("Transaction failed after 3 attempts: connection refused"), 500⟩ ∧
    ErrorCode.TX_REVERTED ≠ ErrorCode.TX_TIMEOUT ∧
    ErrorCode.TX_REVERTED ≠ ErrorCode.CHAIN_UNAVAILABLE := by
  refine ⟨rfl, by decide, by decide⟩

/-- C3 amended: sendTransaction retries transient failures with
exponential backoff, 2 ^ attempt seconds, up to 3 attempts: failing
transiently twice and succeeding on the third attempt yields success after
exactly 3 attempts; exhausting the attempts on confirmation timeouts
surfaces TX_TIMEOUT, while exhausting them on other transient errors
surfaces the catch-all TX_REVERTED, never CHAIN_UNAVAILABLE. -/
theorem sendTransaction_transient_retry_policy
    (keccakS : String → String) (b bT bN : Nat → AttemptOutcome)
    (f1 f2 : FailKind) (tx : String) (bn gas : Nat) (m : String)
    (_hf1 : f1 ≠ .reverted) (_hf2 : f2 ≠ .reverted)
    (h1 : b 1 = .failure f1) (h2 : b 2 = .failure f2)
    (h3 : b 3 = .success tx bn gas)
    (hT : ∀ a, bT a = .failure .noReceipt)
    (hN : ∀ a, bN a = .failure (.netError m)) :
    (sendTransaction keccakS b 3).result =
      .ok ⟨tx, bn, gas, generateOnchainHash keccakS tx bn gas⟩ ∧
    (sendTransaction keccakS b 3).attempts = 3 ∧
    (sendTransaction keccakS b 3).delays = [2000, 4000] ∧
    (sendTransaction keccakS bT 3).result =
      .error ⟨.TX_TIMEOUT, ("Transaction receipt not found"), 500⟩ ∧
    (sendTransaction keccakS bT 3).attempts = 3 ∧
    (sendTransaction keccakS bN 3).result =
      .error ⟨.TX_REVERTED,
        ("Transaction failed after ") ++ toString 3 ++ (" attempts: ") ++ m, 500⟩ ∧
    (sendTransaction keccakS bN 3).attempts = 3 := by
  simp [sendTransaction, sendTxGo, h1, h2, h3, hT, hN, raisedErr, exhaustWrap]

/-- C3 amended, witness: the policy theorem applied to the demo behaviors. -/
theorem sendTransaction_transient_retry_policy_witness :
    (sendTransaction demoHashS transientTwice 3).result =
      .ok ⟨("0xdef"), 9, 30000,
        generateOnchainHash demoHashS ("0xdef") 9 30000⟩ ∧
    (sendTransaction demoHashS transientTwice 3).attempts = 3 ∧
    (sendTransaction demoHashS transientTwice 3).delays = [2000, 4000] ∧
    (sendTransaction demoHashS allTimeout 3).result =
      .error ⟨.TX_TIMEOUT, ("Transaction receipt not found"), 500⟩ ∧
    (sendTransaction demoHashS allTimeout 3).attempts = 3 ∧
    (sendTransaction demoHashS allNetErr 3).result =
      .error ⟨.TX_REVERTED,
        ("Transaction failed after ") ++ toString 3 ++ (" attempts: ")
          ++ ("connection refused"), 500⟩ ∧
    (sendTransaction demoHashS allNetErr 3).attempts = 3 :=
  sendTransaction_transient_retry_policy demoHashS transientTwice allTimeout
    allNetErr .noReceipt .noReceipt ("0xdef") 9 30000 ("connection refused")
    (by decide) (by decide) rfl rfl rfl (fun _ => rfl) (fun _ => rfl)

/-- C4: the claim states that the Merkle root for two or more hashes
equals the reference bottom-up pairing computed directly over the input
elements. The code refutes it: createMerkleRoot first replaces every input
element with its keccak hash, so already on a two-element input the root
differs from the reference pairing of the raw elements. -/
theorem createMerkleRoot_leafhash_cex :
    createMerkleRoot demoHashS [("0xaa"), ("0xbb")] ≠
      specMerkleRoot demoHashS [("0xaa"), ("0xbb")] := by
  decide

/-- C4 amended: createMerkleRoot maps the empty sequence to the zero
hash and a one-element sequence to that element unchanged; for two or
more hashes it first hashes each element and then equals the reference
bottom-up duplicate-last pairing computed over those hashed leaves. -/
theorem createMerkleRoot_spec (keccakS : String → String) (a : String)
    (hs : List String) (h : 2 ≤ hs.length) :
    createMerkleRoot keccakS [] = zeroHash ∧
    createMerkleRoot keccakS [a] = a ∧
    createMerkleRoot keccakS hs = specMerkleRoot keccakS (hs.map keccakS) := by
  have h0 : ¬ hs.length = 0 := by omega
  have h1 : ¬ hs.length = 1 := by omega
  refine ⟨rfl, rfl, ?_⟩
  simp [createMerkleRoot, specMerkleRoot, List.length_map, h0, h1]

/-- C4 amended, witness: the Merkle agreement evaluated on a two-element
input. -/
theorem createMerkleRoot_spec_witness :
    createMerkleRoot demoHashS [] = zeroHash ∧
    createMerkleRoot demoHashS [("0xcc")] = ("0xcc") ∧
    createMerkleRoot demoHashS [("0xaa"), ("0xbb")] =
      specMerkleRoot demoHashS ([("0xaa"), ("0xbb")].map demoHashS) :=
  createMerkleRoot_spec demoHashS ("0xcc") [("0xaa"), ("0xbb")] (by decide)

/-- Hex digit lists stay within k digits for values below 16 ^ k. -/
lemma natToHexAux_length_le (k : Nat) : ∀ (fuel n : Nat), n < 16 ^ k →
    (natToHexAux fuel n).length ≤ k := by
  induction k with
  | zero =>
      intro fuel n hn
      have hn0 : n = 0 := by simpa using hn
      cases fuel with
      | zero => simp [natToHexAux]
      | succ fuel => simp [natToHexAux, hn0]
  | succ k ih =>
      intro fuel n hn
      cases fuel with
      | zero => simp [natToHexAux]
      | succ fuel =>
          by_cases h0 : n = 0
          · simp [natToHexAux, h0]
          · have hdiv : n / 16 < 16 ^ k := by
              have h16 : 0 < 16 := by decide
              rw [Nat.div_lt_iff_lt_mul h16]
              calc n < 16 ^ (k + 1) := hn
                _ = 16 ^ k * 16 := by rw [pow_succ]
            have := ih fuel (n / 16) hdiv
            simp only [natToHexAux, h0, if_false, List.length_cons]
            omega

/-- Every hex digit produced by natToHexAux is a lowercase hex digit. -/
lemma natToHexAux_all_hex : ∀ (fuel n : Nat),
    (natToHexAux fuel n).all hexLower = true := by
  have hdigit : ∀ m : Nat, m < 16 → hexLower (Nat.digitChar m) = true := by decide
  intro fuel
  induction fuel with
  | zero => intro n; simp [natToHexAux]
  | succ fuel ih =>
      intro n
      by_cases h0 : n = 0
      · simp [natToHexAux, h0]
      · simp only [natToHexAux, h0, if_false, List.all_cons, Bool.and_eq_true]
        exact ⟨hdigit (n % 16) (Nat.mod_lt n (by decide)), ih (n / 16)⟩

/-- The hex rendering of a value below 2 ^ 128 has at most 32 digits, all
lowercase hex. -/
lemma natToHex_data_bound (n : Nat) (h : n < 2 ^ 128) :
    (natToHex n).data.length ≤ 32 ∧ (natToHex n).data.all hexLower = true := by
  have h16 : n < 16 ^ 32 := by
    have : (16 : Nat) ^ 32 = 2 ^ 128 := by norm_num
    omega
  unfold natToHex
  by_cases h0 : n = 0
  · simp [h0]
    decide
  · simp only [h0, if_false]
    constructor
    · simpa using natToHexAux_length_le 32 n n h16
    · simpa using natToHexAux_all_hex n n

/-- The padded hex rendering of a value below 2 ^ 128 is exactly 32
lowercase hex digits. -/
lemma padStart32_natToHex (n : Nat) (h : n < 2 ^ 128) :
    (padStart32 (natToHex n)).data.length = 32 ∧
    (padStart32 (natToHex n)).data.all hexLower = true := by
  obtain ⟨hlen, hall⟩ := natToHex_data_bound n h
  unfold padStart32
  constructor
  · simp only [String.data_append, List.length_append]
    rw [List.length_replicate]
    have heq : (natToHex n).length = (natToHex n).data.length := rfl
    omega
  · simp only [String.data_append, List.all_append, Bool.and_eq_true]
    refine ⟨?_, hall⟩
    rw [List.all_eq_true]
    intro c hc
    have hc0 := List.eq_of_mem_replicate hc
    subst hc0
    decide

/-- C5: generateClassId agrees with the spec form - the keccak-256 hash
of the canonical string projectId|ISO8601(start)|ISO8601(end), truncated
to its high-order 128 bits - it is deterministic, depending only on the
project id and the ISO renderings of the window bounds, and its output is
0x followed by exactly 32 lowercase hex digits. -/
theorem generateClassId_spec
    (keccakN : String → Nat) (projectId : String) (ws we ws2 we2 : DateT)
    (_hlt : ws.ms < we.ms)
    (hk : keccakN (projectId ++ ("|") ++ ws.iso ++ ("|") ++ we.iso) < 2 ^ 256)
    (hiso1 : ws2.iso = ws.iso) (hiso2 : we2.iso = we.iso) :
    generateClassId keccakN projectId ws we =
      specClassId keccakN projectId ws we ∧
    generateClassId keccakN projectId ws2 we2 =
      generateClassId keccakN projectId ws we ∧
    classIdWellFormed (generateClassId keccakN projectId ws we) := by
  refine ⟨rfl, by simp [generateClassId, hiso1, hiso2], ?_⟩
  have hshift : keccakN (projectId ++ ("|") ++ ws.iso ++ ("|") ++ we.iso)
      / 2 ^ 128 < 2 ^ 128 := by
    rw [Nat.div_lt_iff_lt_mul (by positivity)]
    calc keccakN (projectId ++ ("|") ++ ws.iso ++ ("|") ++ we.iso)
        < 2 ^ 256 := hk
      _ = 2 ^ 128 * 2 ^ 128 := by rw [← pow_add]
  obtain ⟨hplen, hpall⟩ := padStart32_natToHex _ hshift
  show classIdWellFormed (("0x") ++ padStart32 (natToHex _))
  unfold classIdWellFormed
  have hdata : (("0x") ++ padStart32 (natToHex
      (keccakN (projectId ++ ("|") ++ ws.iso ++ ("|") ++ we.iso) / 2 ^ 128))).data =
      [('0'), ('x')] ++ (padStart32 (natToHex
      (keccakN (projectId ++ ("|") ++ ws.iso ++ ("|") ++ we.iso) / 2 ^ 128))).data := by
    rw [String.data_append]
  refine ⟨?_, ?_, ?_, ?_⟩
  · show (("0x") ++ padStart32 (natToHex _)).data.length = 34
    rw [hdata, List.length_append, hplen]
    rfl
  · rw [hdata]
    rfl
  · rw [hdata]
    simpa using hplen
  · rw [hdata]
    simpa using hpall

/-- C5 witness: the classId theorem evaluated at the scenario inputs of
the spec, with the demo hash. -/
theorem generateClassId_spec_witness :
    generateClassId demoHashN ("PRJ001") vintage2020Start vintage2020End =
      specClassId demoHashN ("PRJ001") vintage2020Start vintage2020End ∧
    generateClassId demoHashN ("PRJ001") vintage2020Start vintage2020End =
      generateClassId demoHashN ("PRJ001") vintage2020Start vintage2020End ∧
    classIdWellFormed
      (generateClassId demoHashN ("PRJ001") vintage2020Start vintage2020End) :=
  generateClassId_spec demoHashN ("PRJ001") vintage2020Start vintage2020End
    vintage2020Start vintage2020End (by decide) (by decide) rfl rfl

/-- C7: the claim states body hashing is computed over a canonical
serialization so that semantically identical bodies hash identically and
different bodies are meant to hash differently. The code contradicts the
second half: JSON.stringify with the sorted top-level key array as
replacer filters every nested key through that array, so the two distinct
bodies a.b=1 and a.b=2 both serialize to the same string - the nested
value is dropped entirely - and hash identically under every hash
function. -/
theorem generateBodyHash_nested_collision :
    (∀ keccakS : String → String,
      generateBodyHash keccakS nestedBody1 = generateBodyHash keccakS nestedBody2) ∧
    nestedBody1 ≠ nestedBody2 ∧
    serializeJson (sortStrings (jsObjectKeys nestedBody1)) nestedBody1 =
      ("\x7b\"a\":\x7b\x7d\x7d") ∧
    serializeJson (sortStrings (jsObjectKeys nestedBody2)) nestedBody2 =
      ("\x7b\"a\":\x7b\x7d\x7d") := by
  refine ⟨fun keccakS => rfl, ?_, rfl, rfl⟩
  intro h
  simp [nestedBody1, nestedBody2] at h

/-- C1: the claim states that a duplicate (method, path, body, org, key)
submission yields exactly one ledger submission with the association
durably recorded. The code refutes it even sequentially: storeIdempotency
is never called - the storage step of the issuance route is an empty
block - so the first dispatch leaves the idempotency table empty and the
identical second dispatch executes again: two submissions, two receipts,
no key binding. -/
theorem duplicate_request_double_submission :
    issueRun1.submits = 1 ∧ issueRun2.submits = 1 ∧
    issueRun1.db.idemp = [] ∧ issueRun2.db.idemp = [] ∧
    issueRun1.status = 201 ∧ issueRun2.status = 201 ∧
    issueRun1.db.receipts.length = 1 ∧ issueRun2.db.receipts.length = 2 :=
  ⟨rfl, rfl, rfl, rfl, rfl, rfl, rfl, rfl⟩

/-- C6: for a stored idempotency key, a request presenting the same key
with any differing (method, path, bodyHash, org) field is answered with
the 409 conflict before any receipt is created and with zero ledger
submissions; a request whose tuple matches exactly is answered as a
replay carrying the previously bound receipt, again with zero
submissions. -/
theorem idempotency_conflict_and_replay
    (keccakS : String → String) (db : Db) (req : RetireReq) (orgId : String)
    (chainBalance : Int) (ledger : Except JsErr TxResult) (rec : IdempRecord)
    (hfind : findIdemp req.idemKey db.idemp = some rec) :
    (¬ (rec.method = ("POST") ∧ rec.path = ("/v1/credit/retire") ∧
        rec.bodyHash = generateBodyHash keccakS req.body ∧ rec.orgId = orgId) →
      (runRetireRoute keccakS db req orgId chainBalance ledger).status = 409 ∧
      (runRetireRoute keccakS db req orgId chainBalance ledger).body =
        .err .IDEMPOTENT_REPLAY
          ("Idempotency key already used with different request parameters") ∧
      (runRetireRoute keccakS db req orgId chainBalance ledger).db.receipts =
        db.receipts ∧
      (runRetireRoute keccakS db req orgId chainBalance ledger).db.idemp =
        db.idemp ∧
      (runRetireRoute keccakS db req orgId chainBalance ledger).submits = 0) ∧
    (∀ rid r,
      (rec.method = ("POST") ∧ rec.path = ("/v1/credit/retire") ∧
        rec.bodyHash = generateBodyHash keccakS req.body ∧ rec.orgId = orgId) →
      rec.receiptId = some rid →
      findReceipt rid db.receipts = some r →
      (runRetireRoute keccakS db req orgId chainBalance ledger).status = 200 ∧
      (runRetireRoute keccakS db req orgId chainBalance ledger).body =
        .receiptRef r.id r.classId r.quantity r.txHash r.blockNumber r.onchainHash ∧
      (runRetireRoute keccakS db req orgId chainBalance ledger).db.receipts =
        db.receipts ∧
      (runRetireRoute keccakS db req orgId chainBalance ledger).submits = 0) := by
  constructor
  · intro hdiff
    simp [runRetireRoute, idempotencyMiddleware, checkIdempotency, hfind, hdiff]
  · intro rid r hmatch hrid hr
    simp [runRetireRoute, idempotencyMiddleware, checkIdempotency, hfind,
      hmatch.1, hmatch.2.1, hmatch.2.2.1, hmatch.2.2.2, hrid, hr]

/-- C6 witness: the guard theorem applied to a stored record with a
differing organization, and to a stored record matching the request
exactly and bound to the MINED receipt r0. -/
theorem idempotency_conflict_and_replay_witness :
    ((runRetireRoute demoHashS dbConflict retireReqDemo ("org1") 0 txOkDemo).status = 409 ∧
      (runRetireRoute demoHashS dbConflict retireReqDemo ("org1") 0 txOkDemo).body =
        .err .IDEMPOTENT_REPLAY
          ("Idempotency key already used with different request parameters") ∧
      (runRetireRoute demoHashS dbConflict retireReqDemo ("org1") 0 txOkDemo).db.receipts =
        dbConflict.receipts ∧
      (runRetireRoute demoHashS dbConflict retireReqDemo ("org1") 0 txOkDemo).db.idemp =
        dbConflict.idemp ∧
      (runRetireRoute demoHashS dbConflict retireReqDemo ("org1") 0 txOkDemo).submits = 0) ∧
    ((runRetireRoute demoHashS dbReplay retireReqDemo ("org1") 0 txOkDemo).status = 200 ∧
      (runRetireRoute demoHashS dbReplay retireReqDemo ("org1") 0 txOkDemo).body =
        .receiptRef minedReceiptDemo.id minedReceiptDemo.classId
          minedReceiptDemo.quantity minedReceiptDemo.txHash
          minedReceiptDemo.blockNumber minedReceiptDemo.onchainHash ∧
      (runRetireRoute demoHashS dbReplay retireReqDemo ("org1") 0 txOkDemo).db.receipts =
        dbReplay.receipts ∧
      (runRetireRoute demoHashS dbReplay retireReqDemo ("org1") 0 txOkDemo).submits = 0) :=
  ⟨(idempotency_conflict_and_replay demoHashS dbConflict retireReqDemo ("org1")
      0 txOkDemo idempRecConflict rfl).1 (by decide),
    (idempotency_conflict_and_replay demoHashS dbReplay retireReqDemo ("org1")
      0 txOkDemo idempRecMatch rfl).2 ("r0") minedReceiptDemo
      ⟨rfl, rfl, rfl, rfl⟩ rfl rfl⟩

/-- C10: for a retirement request with a nonempty classId and a
first-seen key, the preflight raises INSUFFICIENT_BALANCE - with no
receipt created and zero ledger submissions - exactly when the requested
quantity exceeds the constant 1000 that getBalance returns for token
queries, whatever the actual chain balance is. -/
theorem retire_preflight_balance
    (keccakS : String → String) (db : Db) (req : RetireReq) (orgId : String)
    (chainBalance : Int) (ledger : Except JsErr TxResult)
    (hkey : findIdemp req.idemKey db.idemp = none)
    (hcls : req.classId ≠ ("")) :
    ((runRetireRoute keccakS db req orgId chainBalance ledger).status = 400 ∧
      (runRetireRoute keccakS db req orgId chainBalance ledger).body =
        .err .INSUFFICIENT_BALANCE
          (("Insufficient balance. Holder has ") ++ toString (1000 : Int)
            ++ (", requested ") ++ toString req.quantity) ∧
      (runRetireRoute keccakS db req orgId chainBalance ledger).db.receipts =
        db.receipts ∧
      (runRetireRoute keccakS db req orgId chainBalance ledger).submits = 0) ↔
    1000 < req.quantity := by
  have hmid : idempotencyMiddleware keccakS db ("POST") ("/v1/credit/retire")
      req.idemKey req.body orgId = .proceed := by
    simp [idempotencyMiddleware, checkIdempotency, hkey]
  have hbal1000 : getBalance chainBalance req.holder (some req.classId) = 1000 := by
    simp [getBalance, hcls]
  by_cases hq0 : req.quantity ≤ 0
  · have hnot : ¬ (1000 : Int) < req.quantity := by omega
    simp [runRetireRoute, hmid, retireCredits, hq0, hnot]
  · by_cases hbal : (1000 : Int) < req.quantity
    · simp [runRetireRoute, hmid, retireCredits, hq0, hbal1000, hbal]
    · simp only [runRetireRoute, hmid]
      simp only [retireCredits, if_neg hq0, hbal1000, if_neg hbal]
      cases ledger with
      | ok r => simp [hbal]
      | error e => simp [hbal]

/-- C10 witness: the preflight theorem evaluated on a 2000-unit request
against the empty database. -/
theorem retire_preflight_balance_witness :
    ((runRetireRoute demoHashS emptyDb retireReqBig ("org1") 0 txOkDemo).status = 400 ∧
      (runRetireRoute demoHashS emptyDb retireReqBig ("org1") 0 txOkDemo).body =
        .err .INSUFFICIENT_BALANCE
          (("Insufficient balance. Holder has ") ++ toString (1000 : Int)
            ++ (", requested ") ++ toString retireReqBig.quantity) ∧
      (runRetireRoute demoHashS emptyDb retireReqBig ("org1") 0 txOkDemo).db.receipts =
        emptyDb.receipts ∧
      (runRetireRoute demoHashS emptyDb retireReqBig ("org1") 0 txOkDemo).submits = 0) ↔
    1000 < retireReqBig.quantity :=
  retire_preflight_balance demoHashS emptyDb retireReqBig ("org1") 0 txOkDemo
    rfl (by decide)

/-- The receipt appended last and then finalized through markFailed is the
last row of the resulting table. -/
lemma markFailed_append_getLast (store : ReceiptStore) (pend : Receipt)
    (rid c m : String) (h : pend.id = rid) :
    (markFailed (store ++ [pend]) rid c m).getLast? =
      some ({ pend with
                status := .FAILED
                errorCode := some c
                errorMessage := some m }) := by
  unfold markFailed
  rw [List.map_append]
  simp [h]

/-- C9: in each of the three handlers, a ledger failure occurring after
the PENDING receipt was created is recorded on that receipt - status
FAILED together with the failure code and message - and the handler
returns the error: the AppError itself, or the INTERNAL_ERROR wrapper for
a non-AppError value. -/
theorem failures_recorded_on_receipt
    (receipts : ReceiptStore) (classMap : List ClassMapRow)
    (reqR : RetireReq) (reqA : AnchorReq) (reqI : IssueReq)
    (orgId : String) (chainBalance : Int) (e : JsErr) (keccakN : String → Nat)
    (hqR : 0 < reqR.quantity) (hbR : reqR.quantity ≤ 1000)
    (hcR : reqR.classId ≠ (""))
    (hvI : validateClassMapping reqI.projectId reqI.vintageStart reqI.vintageEnd =
      .ok ())
    (hqI : 0 < reqI.quantity) :
    ((retireCredits receipts reqR orgId chainBalance (.error e)).result =
        .error (outerWrap ("Failed to retire credits") e) ∧
      (retireCredits receipts reqR orgId chainBalance (.error e)).receipts.getLast?.map
          (fun r => (r.status, r.errorCode, r.errorMessage)) =
        some (.FAILED, some (catchCodeStr e), some (catchMsgStr e))) ∧
    ((anchorEvidence receipts reqA orgId (.error e)).result =
        .error (outerWrap ("Failed to anchor evidence") e) ∧
      (anchorEvidence receipts reqA orgId (.error e)).receipts.getLast?.map
          (fun r => (r.status, r.errorCode, r.errorMessage)) =
        some (.FAILED, some (catchCodeStr e), some (catchMsgStr e))) ∧
    ((finalizeIssuance keccakN receipts classMap reqI orgId (.error e)).result =
        .error (outerWrap ("Failed to finalize issuance") e) ∧
      (finalizeIssuance keccakN receipts classMap reqI orgId (.error e)).receipts.getLast?.map
          (fun r => (r.status, r.errorCode, r.errorMessage)) =
        some (.FAILED, some (catchCodeStr e), some (catchMsgStr e))) := by
  have hq0 : ¬ reqR.quantity ≤ 0 := by omega
  have hbal : ¬ (getBalance chainBalance reqR.holder (some reqR.classId) <
      reqR.quantity) := by
    simp [getBalance, hcR]
    omega
  have hqI0 : ¬ reqI.quantity ≤ 0 := by omega
  refine ⟨?_, ?_, ?_⟩
  · constructor
    · simp [retireCredits, hq0, hbal]
    · simp only [retireCredits, if_neg hq0, if_neg hbal]
      rw [markFailed_append_getLast receipts
        (pendingRetireReceipt (freshId receipts) reqR orgId) (freshId receipts)
        (catchCodeStr e) (catchMsgStr e) rfl]
      rfl
  · constructor
    · simp [anchorEvidence]
    · simp only [anchorEvidence]
      rw [markFailed_append_getLast receipts
        (pendingAnchorReceipt (freshId receipts) reqA orgId) (freshId receipts)
        (catchCodeStr e) (catchMsgStr e) rfl]
      rfl
  · constructor
    · simp [finalizeIssuance, hvI, hqI0]
    · simp only [finalizeIssuance, hvI, if_neg hqI0]
      rw [markFailed_append_getLast receipts
        (pendingIssueReceipt (freshId receipts) reqI
          (if reqI.classId.getD ("") = ("") then
              resolveClassId keccakN classMap reqI.projectId reqI.vintageStart
                reqI.vintageEnd
            else (reqI.classId.getD (""), classMap)).1
          orgId) (freshId receipts)
        (catchCodeStr e) (catchMsgStr e) rfl]
      rfl

/-- C9 witness: the recording theorem evaluated on the demo requests with
a transient non-AppError ledger failure. -/
theorem failures_recorded_on_receipt_witness :
    ((retireCredits [] retireReqDemo ("org1") 0 (.error ledgerErrDemo)).result =
        .error (outerWrap ("Failed to retire credits") ledgerErrDemo) ∧
      (retireCredits [] retireReqDemo ("org1") 0 (.error ledgerErrDemo)).receipts.getLast?.map
          (fun r => (r.status, r.errorCode, r.errorMessage)) =
        some (.FAILED, some (catchCodeStr ledgerErrDemo), some (catchMsgStr ledgerErrDemo))) ∧
    ((anchorEvidence [] anchorReqDemo ("org1") (.error ledgerErrDemo)).result =
        .error (outerWrap ("Failed to anchor evidence") ledgerErrDemo) ∧
      (anchorEvidence [] anchorReqDemo ("org1") (.error ledgerErrDemo)).receipts.getLast?.map
          (fun r => (r.status, r.errorCode, r.errorMessage)) =
        some (.FAILED, some (catchCodeStr ledgerErrDemo), some (catchMsgStr ledgerErrDemo))) ∧
    ((finalizeIssuance demoHashN [] [] issueReqDemo ("org1") (.error ledgerErrDemo)).result =
        .error (outerWrap ("Failed to finalize issuance") ledgerErrDemo) ∧
      (finalizeIssuance demoHashN [] [] issueReqDemo ("org1") (.error ledgerErrDemo)).receipts.getLast?.map
          (fun r => (r.status, r.errorCode, r.errorMessage)) =
        some (.FAILED, some (catchCodeStr ledgerErrDemo), some (catchMsgStr ledgerErrDemo))) :=
  failures_recorded_on_receipt [] [] retireReqDemo anchorReqDemo issueReqDemo
    ("org1") 0 ledgerErrDemo demoHashN (by decide) (by decide) (by decide)
    rfl (by decide)

/-- C8: the claim states that no operation exposed by the core can move a
MINED receipt to another status. The code refutes it: updateReceiptStatus
writes any requested status unguarded, here moving the MINED receipt r0
back to PENDING. -/
theorem updateReceiptStatus_unguarded_cex :
    minedReceiptDemo.status = .MINED ∧
    (updateReceiptStatus [minedReceiptDemo] ("r0") .PENDING none none).map
        (fun r => r.status) = [.PENDING] :=
  ⟨rfl, rfl⟩

/-- Rows produced by a finalizing update over the table with the fresh
pending row appended are either untouched old rows or rows the update
stamped; used for the amended receipt invariant. -/
lemma mem_finalize_append (store : ReceiptStore) (pend : Receipt) (rid : String)
    (f : Receipt → Receipt) (hpend : pend.id = rid)
    (hf : ∀ rc, (f rc).status = .MINED ∨ (f rc).status = .FAILED) :
    ∀ r ∈ (store ++ [pend]).map (fun rc => if rc.id = rid then f rc else rc),
      r ∈ store ∨ r.status = .MINED ∨ r.status = .FAILED := by
  intro r hr
  rw [List.mem_map] at hr
  obtain ⟨r0, hr0, hre⟩ := hr
  by_cases h : r0.id = rid
  · rw [if_pos h] at hre
    right
    rw [← hre]
    exact hf r0
  · rw [if_neg h] at hre
    rw [List.mem_append] at hr0
    cases hr0 with
    | inl hin => left; rw [← hre]; exact hin
    | inr hin =>
        exfalso
        apply h
        rw [List.mem_singleton] at hin
        rw [hin, hpend]

/-- Old rows whose id differs from the finalized one survive a finalizing
update unchanged. -/
lemma mem_finalize_append_preserved (store : ReceiptStore) (pend : Receipt)
    (rid : String) (f : Receipt → Receipt) :
    ∀ r ∈ store, r.id ≠ rid →
      r ∈ (store ++ [pend]).map (fun rc => if rc.id = rid then f rc else rc) := by
  intro r hr hid
  rw [List.mem_map]
  refine ⟨r, List.mem_append_left _ hr, ?_⟩
  rw [if_neg hid]

/-- C8 amended: the pipeline operations themselves only ever create
receipts PENDING and finalize them to the terminal MINED or FAILED - a
dispatch leaves every row either as it was or terminal, and rows other
than the fresh one survive unchanged - and no exposed operation rewrites
transaction hash, block number or content hash: updateReceiptStatus
preserves them on every row; but the unguarded status write of
updateReceiptStatus can move a MINED or FAILED receipt to any status. -/
theorem receipt_transitions
    (store : ReceiptStore) (id : String) (st : RStatus) (c m : Option String)
    (keccakS : String → String) (db : Db) (req : RetireReq) (orgId : String)
    (chainBalance : Int) (ledger : Except JsErr TxResult) :
    ((updateReceiptStatus store id st c m).map
        (fun r => (r.id, r.txHash, r.blockNumber, r.onchainHash)) =
      store.map (fun r => (r.id, r.txHash, r.blockNumber, r.onchainHash))) ∧
    (∀ r ∈ (runRetireRoute keccakS db req orgId chainBalance ledger).db.receipts,
      r ∈ db.receipts ∨ r.status = .MINED ∨ r.status = .FAILED) ∧
    (∀ r ∈ db.receipts, r.id ≠ freshId db.receipts →
      r ∈ (runRetireRoute keccakS db req orgId chainBalance ledger).db.receipts) := by
  refine ⟨?_, ?_⟩
  · unfold updateReceiptStatus
    rw [List.map_map]
    apply List.map_congr_left
    intro a _
    by_cases h : a.id = id <;> simp [h]
  · cases hm : idempotencyMiddleware keccakS db ("POST") ("/v1/credit/retire")
        req.idemKey req.body orgId with
    | reply s b =>
        simp only [runRetireRoute, hm]
        exact ⟨fun r hr => Or.inl hr, fun r hr _ => hr⟩
    | proceed =>
        by_cases hq0 : req.quantity ≤ 0
        · simp only [runRetireRoute, hm, retireCredits, if_pos hq0]
          exact ⟨fun r hr => Or.inl hr, fun r hr _ => hr⟩
        · by_cases hbal : getBalance chainBalance req.holder (some req.classId) <
              req.quantity
          · simp only [runRetireRoute, hm, retireCredits, if_neg hq0, if_pos hbal]
            exact ⟨fun r hr => Or.inl hr, fun r hr _ => hr⟩
          · cases ledger with
            | ok tx =>
                simp only [runRetireRoute, hm, retireCredits, if_neg hq0,
                  if_neg hbal, markMined]
                constructor
                · exact mem_finalize_append db.receipts
                    (pendingRetireReceipt (freshId db.receipts) req orgId)
                    (freshId db.receipts) _ rfl (fun rc => Or.inl rfl)
                · exact fun r hr hid => mem_finalize_append_preserved db.receipts
                    (pendingRetireReceipt (freshId db.receipts) req orgId)
                    (freshId db.receipts) _ r hr hid
            | error e =>
                simp only [runRetireRoute, hm, retireCredits, if_neg hq0,
                  if_neg hbal, markFailed]
                constructor
                · exact mem_finalize_append db.receipts
                    (pendingRetireReceipt (freshId db.receipts) req orgId)
                    (freshId db.receipts) _ rfl (fun rc => Or.inr rfl)
                · exact fun r hr hid => mem_finalize_append_preserved db.receipts
                    (pendingRetireReceipt (freshId db.receipts) req orgId)
                    (freshId db.receipts) _ r hr hid

/-- C8 amended, witness: the transitions theorem evaluated on the database
holding the MINED receipt r0 and a first-seen retirement dispatch. -/
theorem receipt_transitions_witness :
    ((updateReceiptStatus [minedReceiptDemo] ("r0") .FAILED none none).map
        (fun r => (r.id, r.txHash, r.blockNumber, r.onchainHash)) =
      [minedReceiptDemo].map (fun r => (r.id, r.txHash, r.blockNumber, r.onchainHash))) ∧
    (minedReceiptDemo ∈ dbPre.receipts ∨ minedReceiptDemo.status = .MINED ∨
      minedReceiptDemo.status = .FAILED) ∧
    minedReceiptDemo ∈
      (runRetireRoute demoHashS dbPre retireReqDemo ("org1") 0 txOkDemo).db.receipts := by
  have hthm := receipt_transitions [minedReceiptDemo] ("r0") .FAILED none none
    demoHashS dbPre retireReqDemo ("org1") 0 txOkDemo
  have hmem : minedReceiptDemo ∈ dbPre.receipts := List.mem_singleton_self _
  have hid : minedReceiptDemo.id ≠ freshId dbPre.receipts := by decide
  have hres := hthm.2.2 minedReceiptDemo hmem hid
  exact ⟨hthm.1, hthm.2.1 minedReceiptDemo hres, hres⟩

end RegistryAdapter
